import Mathlib

/-!
Verification of the RpgTracker reward, inventory and combat engine.

Shallow embedding of the TypeScript sources:
  src/src/contexts/GameContext.tsx  (quest completion, reward resolution, inventory)
  src/src/pages/Combat.tsx          (turn based combat)
  src/src/contexts/AuthContext.tsx  (updateUser persistence sequencing)

JavaScript numbers that only ever hold integral values are modelled as Int.
The one non integral computation (the Fighter skill bonus strength * 1.5 and
the halved defense in skill damage) is modelled over Rat, with Int.floor for
Math.floor. Optional fields are modelled as Option. Effectful persistence
(supabase, localStorage) is modelled by explicit state passing with boolean
failure injection flags, each await that can throw becoming a branch.
-/

namespace RpgTracker

/-- Character stats, from the stats jsonb column and the TS Character type. -/
structure Stats where
  strength : Int
  dexterity : Int
  intelligence : Int
  availablePoints : Int
deriving DecidableEq

/-- Character record, the fields read and written by completeQuest in
GameContext.tsx. Presentation only fields (name, class, appearance, vitals)
are omitted; they are neither read nor written by the functions under
verification. -/
structure Character where
  level : Int
  experience : Int
  experienceToNext : Int
  gold : Int
  skillPoints : Int
  stats : Stats
deriving DecidableEq

/-- Inventory item, from the TS Item type. quantity is optional (present only
for stackable items), isEquipped is optional. -/
structure Item where
  id : String
  value : Int
  quantity : Option Int
  isEquipped : Option Bool
deriving DecidableEq

/-- Quest reward payload: rewards (experience, gold, skillPoints?, items?). -/
structure QuestRewards where
  experience : Int
  gold : Int
  skillPoints : Option Int
  items : Option (List Item)
deriving DecidableEq

/-- Quest record, the fields read and written by completeQuest. Title,
description, type, difficulty and the timestamps play no role in the
functions under verification and are omitted. -/
structure Quest where
  id : String
  rewards : QuestRewards
  isCompleted : Bool
  isActive : Bool
  progress : Int
  maxProgress : Int
deriving DecidableEq

/-- The in-memory game state held by GameProvider: the quest list, the
character (held by AuthContext as user.character) and the inventory. -/
structure GameState where
  quests : List Quest
  character : Character
  inventory : List Item
deriving DecidableEq

/-- Monster template, from the monsters table (Combat.tsx). -/
structure Monster where
  name : String
  hp : Int
  attack : Int
  defense : Int
  exp_reward : Int
  gold_reward : Int
deriving DecidableEq

/-- Skill record, from the skills table (Combat.tsx). -/
structure Skill where
  id : String
  name : String
  mana_cost : Int
  damage : Int
  required_class : String
deriving DecidableEq

/-- Live combat state of the Combat component: the monsterHP, playerHP,
playerMP and combatLog useState hooks plus the menu state. -/
structure CombatState where
  monsterHP : Int
  playerHP : Int
  playerMP : Int
  combatLog : List String
  menuState : String
deriving DecidableEq

/-- JavaScript truthiness of an optional number: absent and 0 are falsy,
every other number is truthy. -/
def jsTruthy : Option Int → Bool
  | none => false
  | some v => v != 0

/-- JavaScript `x || d` on an optional number: the value when truthy,
otherwise the default. -/
def jsOr (q : Option Int) (d : Int) : Int :=
  if jsTruthy q then q.getD d else d

/-- Reward application of completeQuest, GameContext.tsx lines 126 to 154:
newExp, newGold, newSkillPoints are unconditional sums; a single if grants at
most one level, setting experienceToNext to newLevel * 100 and adding 3
availablePoints. The spec names this operation resolveQuestCompletion. -/
def resolveQuestCompletion (c : Character) (q : Quest) : Character :=
  let newExp := c.experience + q.rewards.experience
  let newGold := c.gold + q.rewards.gold
  let newSkillPoints := c.skillPoints + jsOr q.rewards.skillPoints 0
  let newLevel := if newExp ≥ c.experienceToNext then c.level + 1 else c.level
  let newExpToNext := if newExp ≥ c.experienceToNext then newLevel * 100 else c.experienceToNext
  let newAvailablePoints :=
    if newExp ≥ c.experienceToNext then c.stats.availablePoints + 3 else c.stats.availablePoints
  { c with
    experience := newExp
    experienceToNext := newExpToNext
    level := newLevel
    gold := newGold
    skillPoints := newSkillPoints
    stats := { c.stats with availablePoints := newAvailablePoints } }

/-- completeQuest, GameContext.tsx lines 112 to 166, success path as a pure
state transition: find the quest; return unchanged when missing or already
completed; otherwise mark it completed (questAPI sets is_completed and
progress := max_progress), apply the rewards to the character, and append the
granted items (the code appends quest.rewards.items directly, guarded by a
truthiness check on the optional array). -/
def completeQuest (s : GameState) (questId : String) : GameState :=
  match s.quests.find? (fun q => q.id == questId) with
  | none => s
  | some quest =>
    if quest.isCompleted then s
    else
      let completedQuest := { quest with isCompleted := true, progress := quest.maxProgress }
      { quests := s.quests.map (fun q => if q.id == questId then completedQuest else q)
        character := resolveQuestCompletion s.character quest
        inventory :=
          match quest.rewards.items with
          | some items => s.inventory ++ items
          | none => s.inventory }

/-- addItem, GameContext.tsx lines 180 to 197: findIndex on the id; when an
entry exists and the incoming quantity is truthy, map over the inventory
replacing the entry at that index with quantity (i.quantity || 0) +
(item.quantity || 1); otherwise append. -/
def addItem (inventory : List Item) (item : Item) : List Item :=
  match inventory.findIdx? (fun i => i.id == item.id) with
  | some existingItemIndex =>
      if jsTruthy item.quantity then
        inventory.mapIdx (fun index i =>
          if index = existingItemIndex then
            { i with quantity := some (jsOr i.quantity 0 + jsOr item.quantity 1) }
          else i)
      else inventory ++ [item]
  | none => inventory ++ [item]

/-- addToCombatLog, Combat.tsx lines 61 to 63: append then slice(-10), that
is keep the most recent 10 entries. -/
def addToCombatLog (log : List String) (message : String) : List String :=
  let l := log ++ [message]
  l.drop (l.length - 10)

/-- Player basic attack damage, Combat.tsx lines 69 to 70:
max(1, (10 + strength * 2) - monsterDefense). -/
def attackDamage (m : Monster) (st : Stats) : Int :=
  max 1 (10 + st.strength * 2 - m.defense)

/-- Raw (pre floor, pre clamp) skill damage, Combat.tsx lines 92 to 97:
the base damage plus intelligence * 2 for Wizard skills and
strength * 1.5 for Fighter skills. -/
def skillRawDamage (sk : Skill) (st : Stats) : ℚ :=
  (sk.damage : ℚ) +
    (if sk.required_class = "Wizard" then (st.intelligence : ℚ) * 2
     else if sk.required_class = "Fighter" then (st.strength : ℚ) * 1.5
     else 0)

/-- Applied skill damage, Combat.tsx line 99:
max(1, Math.floor(skillDamage - monsterDefense / 2)). -/
def skillDamage (m : Monster) (st : Stats) (sk : Skill) : Int :=
  max 1 ⌊skillRawDamage sk st - (m.defense : ℚ) / 2⌋

/-- Monster counter attack damage, Combat.tsx line 123:
max(1, monsterAttack - (5 + dexterity)). -/
def counterDamage (m : Monster) (st : Stats) : Int :=
  max 1 (m.attack - (5 + st.dexterity))

/-- handleAttack, Combat.tsx lines 65 to 86. The monster and the user are the
non null currentMonster and user (the code returns unchanged when either is
null). The Bool records whether the monster counter attack was scheduled: the
code returns right after the victory log lines, scheduling the counter only
in the else path. -/
def handleAttack (m : Monster) (st : Stats) (s : CombatState) : CombatState × Bool :=
  let damage := attackDamage m st
  let newMonsterHP := max 0 (s.monsterHP - damage)
  let s1 := { s with
    monsterHP := newMonsterHP
    combatLog := addToCombatLog s.combatLog
      ("You attack " ++ m.name ++ " for " ++ toString damage ++ " damage!") }
  if newMonsterHP ≤ 0 then
    let s2 := { s1 with combatLog := addToCombatLog s1.combatLog (m.name ++ " is defeated!") }
    ({ s2 with combatLog := (addToCombatLog s2.combatLog
        ("You gained " ++ toString m.exp_reward ++ " EXP and "
          ++ toString m.gold_reward ++ " Gold!")) }, false)
  else
    (s1, true)

/-- handleSkillUse, Combat.tsx lines 88 to 118. The only guard the function
itself re-checks is playerMP < skill.mana_cost (besides the non null monster
and user); on that guard it returns with no state change at all. It does not
consult the unlocked skill list. On a valid cast it deducts the mana, applies
the damage, logs, resets the menu, and schedules the counter attack only when
the monster survives. -/
def handleSkillUse (m : Monster) (st : Stats) (sk : Skill) (s : CombatState) :
    CombatState × Bool :=
  if s.playerMP < sk.mana_cost then (s, false)
  else
    let damage := skillDamage m st sk
    let newMonsterHP := max 0 (s.monsterHP - damage)
    let newPlayerMP := s.playerMP - sk.mana_cost
    let s1 := { s with
      monsterHP := newMonsterHP
      playerMP := newPlayerMP
      combatLog := addToCombatLog s.combatLog
        ("You cast " ++ sk.name ++ " for " ++ toString damage ++ " damage!")
      menuState := "main" }
    if newMonsterHP ≤ 0 then
      let s2 := { s1 with combatLog := addToCombatLog s1.combatLog (m.name ++ " is defeated!") }
      ({ s2 with combatLog := (addToCombatLog s2.combatLog
          ("You gained " ++ toString m.exp_reward ++ " EXP and "
            ++ toString m.gold_reward ++ " Gold!")) }, false)
    else
      (s1, true)

/-- monsterAttack, Combat.tsx lines 120 to 132: the delayed counter attack.
Besides the non null monster and user it performs no check at all on the
combat state: it applies its damage whatever the values of monsterHP,
playerHP or the log say about the encounter. -/
def monsterAttack (m : Monster) (st : Stats) (s : CombatState) : CombatState :=
  let damage := counterDamage m st
  let newPlayerHP := max 0 (s.playerHP - damage)
  let s1 := { s with
    playerHP := newPlayerHP
    combatLog := addToCombatLog s.combatLog
      (m.name ++ " attacks you for " ++ toString damage ++ " damage!") }
  if newPlayerHP ≤ 0 then
    { s1 with combatLog := addToCombatLog s1.combatLog "You have been defeated!" }
  else s1

/-- handleRun, Combat.tsx lines 134 to 139: log the flee line (the navigation
away is a UI concern). It does not cancel a pending counter attack timer. -/
def handleRun (s : CombatState) : CombatState :=
  { s with combatLog := addToCombatLog s.combatLog "You fled from battle!" }

/-- One full attack exchange: the player acts, then the scheduled counter
attack fires (when one was scheduled and no other action intervened). -/
def attackExchange (m : Monster) (st : Stats) (s : CombatState) : CombatState :=
  let r := handleAttack m st s
  if r.2 then monsterAttack m st r.1 else r.1

/-- One full skill exchange: the player casts, then the scheduled counter
attack fires (when one was scheduled and no other action intervened). -/
def skillExchange (m : Monster) (st : Stats) (sk : Skill) (s : CombatState) : CombatState :=
  let r := handleSkillUse m st sk s
  if r.2 then monsterAttack m st r.1 else r.1

/-- Observable state of a quest completion run across the two stores: the
in-memory character and inventory (React state), the character row persisted
through userAPI.updateCharacter (supabase), the inventory persisted through
saveInventoryData (localStorage), and whether the quest row was marked
completed. -/
structure World where
  memCharacter : Character
  memInventory : List Item
  dbCharacter : Character
  lsInventory : List Item
  dbQuestCompleted : Bool
deriving DecidableEq

/-- completeQuest with persistence failure injection, following the exact
await sequencing of GameContext.tsx lines 112 to 166 and AuthContext.tsx
lines 143 to 184. Each flag tells whether the corresponding fallible write
succeeds; a failed write throws, so every later step is skipped and the
returned Bool is false (the error propagates to the caller).
Order of effects: (1) questAPI.completeQuest marks the quest row;
(2) updateUser first awaits userAPI.updateCharacter and only then updates the
in-memory user; (3) when the quest grants items, setInventory updates the
in-memory inventory first and saveInventoryData writes localStorage after. -/
def completeQuestRun (w : World) (q : Quest) (questWriteOk charWriteOk invWriteOk : Bool) :
    World × Bool :=
  if q.isCompleted then (w, true)
  else if questWriteOk = false then (w, false)
  else
    let w1 := { w with dbQuestCompleted := true }
    let c := resolveQuestCompletion w.memCharacter q
    if charWriteOk = false then (w1, false)
    else
      let w2 := { w1 with dbCharacter := c, memCharacter := c }
      match q.rewards.items with
      | none => (w2, true)
      | some items =>
          let inv := w.memInventory ++ items
          let w3 := { w2 with memInventory := inv }
          if invWriteOk = false then (w3, false)
          else ({ w3 with lsInventory := inv }, true)

/-- Replace the quantity of the first entry with the given id by its old
quantity (0 when absent) plus q, leaving everything else unchanged. -/
def mergeFirstStack (itemId : String) (q : Int) : List Item → List Item
  | [] => []
  | e :: rest =>
      if e.id == itemId then { e with quantity := some (e.quantity.getD 0 + q) } :: rest
      else e :: mergeFirstStack itemId q rest

/-- Definition following the amended claim words: addItem merges when an
entry with the same id already exists and the incoming item carries a
NONZERO quantity (JavaScript truthiness makes quantity 0 behave like an
absent field); the merge leaves the entry count unchanged and sums the
quantities (an absent stored quantity counts as 0). In every other case (no
matching id, no quantity field, or quantity 0) the item is appended as a new
distinct entry. -/
def addItemAmendedSpec (inventory : List Item) (item : Item) : List Item :=
  match item.quantity with
  | some q =>
      if q != 0 && inventory.any (fun e => e.id == item.id) then
        mergeFirstStack item.id q inventory
      else inventory ++ [item]
  | none => inventory ++ [item]

/-! Concrete sample data, used by witnesses and counterexamples. -/

/-- A stackable healing potion. -/
def samplePotion : Item := { id := "potion", value := 10, quantity := some 1, isEquipped := none }

/-- The potion with quantity 3. -/
def samplePotion3 : Item := { samplePotion with quantity := some 3 }

/-- The potion with quantity 2. -/
def samplePotion2 : Item := { samplePotion with quantity := some 2 }

/-- The potion with quantity 5. -/
def samplePotion5 : Item := { samplePotion with quantity := some 5 }

/-- The potion with an explicit quantity field holding 0. -/
def samplePotion0 : Item := { samplePotion with quantity := some 0 }

/-- The default stat block of a fresh character. -/
def sampleStats : Stats := { strength := 5, dexterity := 5, intelligence := 5, availablePoints := 0 }

/-- A level 1 character close to its level threshold. -/
def sampleCharacter : Character :=
  { level := 1, experience := 60, experienceToNext := 100, gold := 100, skillPoints := 0
    stats := sampleStats }

/-- A reward payload granting experience, gold, a skill point and one item. -/
def sampleRewards : QuestRewards :=
  { experience := 50, gold := 20, skillPoints := some 1, items := some [samplePotion] }

/-- An active, not yet completed quest. -/
def sampleQuest : Quest :=
  { id := "q1", rewards := sampleRewards, isCompleted := false, isActive := true
    progress := 0, maxProgress := 1 }

/-- An already completed quest. -/
def sampleDoneQuest : Quest := { sampleQuest with id := "q2", isCompleted := true }

/-- A game state holding both quests and an empty inventory. -/
def sampleState : GameState :=
  { quests := [sampleQuest, sampleDoneQuest], character := sampleCharacter, inventory := [] }

/-- A world whose memory and stores agree, before a quest completion run. -/
def sampleWorld : World :=
  { memCharacter := sampleCharacter, memInventory := [], dbCharacter := sampleCharacter
    lsInventory := [], dbQuestCompleted := false }

/-- A monster template. -/
def sampleMonster : Monster :=
  { name := "Slime", hp := 30, attack := 20, defense := 4, exp_reward := 10, gold_reward := 5 }

/-- A frail monster, easily defeated in one hit. -/
def sampleWeakMonster : Monster :=
  { name := "Rat", hp := 5, attack := 8, defense := 0, exp_reward := 2, gold_reward := 1 }

/-- A Wizard skill. -/
def sampleSkill : Skill :=
  { id := "s1", name := "Fireball", mana_cost := 10, damage := 12, required_class := "Wizard" }

/-- A live combat state with everyone healthy. -/
def sampleCombat : CombatState :=
  { monsterHP := 30, playerHP := 40, playerMP := 50, combatLog := [], menuState := "main" }

/-- The combat state with the monster down to 5 HP. -/
def sampleCombatLowMonster : CombatState := { sampleCombat with monsterHP := 5 }

/-- A combat state in which the monster is already defeated (victory reached). -/
def sampleVictoryCombat : CombatState := { sampleCombat with monsterHP := 0 }

/-- A combat state with too little mana for sampleSkill. -/
def sampleLowMPCombat : CombatState := { sampleCombat with playerMP := 3 }

/-! Helper lemmas. -/

/-- The JavaScript default x || 0 agrees with Option.getD 0. -/
lemma jsOr_zero (q : Option Int) : jsOr q 0 = q.getD 0 := by
  cases q with
  | none => rfl
  | some v =>
      by_cases h : v = 0 <;> simp [jsOr, jsTruthy, h]

/-- On a truthy value, x || d is the value itself. -/
lemma jsOr_of_truthy (v d : Int) (h : jsTruthy (some v) = true) : jsOr (some v) d = v := by
  simp [jsOr, jsTruthy] at h ⊢
  simp [h]

/-- mapIdx with a pointwise identity function is the identity. -/
lemma mapIdx_id_eq (l : List α) : l.mapIdx (fun _ a => a) = l := by
  induction l with
  | nil => rfl
  | cons a t ih =>
      rw [List.mapIdx_cons]
      simp [ih]

/-- mapIdx only depends on the pointwise behaviour of the function. -/
lemma mapIdx_ext (l : List α) (f g : Nat → α → β) (h : ∀ i a, f i a = g i a) :
    l.mapIdx f = l.mapIdx g := by
  congr 1
  funext i a
  exact h i a

/-- findIdx? finds an index exactly when some element satisfies the predicate. -/
lemma findIdx?_isSome_eq_any (p : α → Bool) (l : List α) :
    (l.findIdx? p).isSome = l.any p := by
  induction l with
  | nil => rfl
  | cons a t ih =>
      rw [List.findIdx?_cons]
      by_cases hp : p a
      · simp [hp]
      · simp [hp, List.findIdx?_succ, ih]

/-- Computable form of the skill damage: Math.floor over the rationals equals
integer floor division after clearing the halves. -/
lemma skillDamage_eval (m : Monster) (st : Stats) (sk : Skill) :
    skillDamage m st sk =
      max 1 ((2 * sk.damage +
          (if sk.required_class = "Wizard" then 4 * st.intelligence
           else if sk.required_class = "Fighter" then 3 * st.strength
           else 0) - m.defense) / 2) := by
  unfold skillDamage skillRawDamage
  split_ifs with h1 h2
  · congr 1
    rw [show (sk.damage : ℚ) + (st.intelligence : ℚ) * 2 - (m.defense : ℚ) / 2
          = ((2 * sk.damage + 4 * st.intelligence - m.defense : ℤ) : ℚ) / ((2 : ℕ) : ℚ) by
        push_cast
        ring]
    exact Rat.floor_intCast_div_natCast _ _
  · congr 1
    rw [show (sk.damage : ℚ) + (st.strength : ℚ) * 1.5 - (m.defense : ℚ) / 2
          = ((2 * sk.damage + 3 * st.strength - m.defense : ℤ) : ℚ) / ((2 : ℕ) : ℚ) by
        push_cast
        norm_num
        ring]
    exact Rat.floor_intCast_div_natCast _ _
  · congr 1
    rw [show (sk.damage : ℚ) + 0 - (m.defense : ℚ) / 2
          = ((2 * sk.damage + 0 - m.defense : ℤ) : ℚ) / ((2 : ℕ) : ℚ) by
        push_cast
        ring]
    exact Rat.floor_intCast_div_natCast _ _

/-- The monster HP after a basic attack is the clamped difference. -/
lemma handleAttack_monsterHP (m : Monster) (st : Stats) (s : CombatState) :
    (handleAttack m st s).1.monsterHP = max 0 (s.monsterHP - attackDamage m st) := by
  simp only [handleAttack]
  split <;> rfl

/-- A basic attack never changes the player HP. -/
lemma handleAttack_playerHP (m : Monster) (st : Stats) (s : CombatState) :
    (handleAttack m st s).1.playerHP = s.playerHP := by
  simp only [handleAttack]
  split <;> rfl

/-- A basic attack schedules the counter attack exactly when the monster
survives the damage. -/
lemma handleAttack_counter_iff (m : Monster) (st : Stats) (s : CombatState) :
    (handleAttack m st s).2 = true ↔ 0 < (handleAttack m st s).1.monsterHP := by
  simp only [handleAttack]
  by_cases h : max 0 (s.monsterHP - attackDamage m st) ≤ 0
  · simp only [h, if_true]
    constructor
    · intro hfalse
      exact absurd hfalse (by simp)
    · intro hlt
      omega
  · simp only [h, if_false]
    constructor
    · intro _
      omega
    · intro _
      trivial

/-- A skill cast never changes the player HP. -/
lemma handleSkillUse_playerHP (m : Monster) (st : Stats) (sk : Skill) (s : CombatState) :
    (handleSkillUse m st sk s).1.playerHP = s.playerHP := by
  simp only [handleSkillUse]
  split_ifs <;> rfl

/-- The monster HP after a valid skill cast is the clamped difference. -/
lemma handleSkillUse_monsterHP_of_valid (m : Monster) (st : Stats) (sk : Skill)
    (s : CombatState) (h : ¬ s.playerMP < sk.mana_cost) :
    (handleSkillUse m st sk s).1.monsterHP = max 0 (s.monsterHP - skillDamage m st sk) := by
  simp only [handleSkillUse]
  rw [if_neg h]
  split <;> rfl

/-- The player MP after a valid skill cast has the mana cost deducted. -/
lemma handleSkillUse_playerMP_of_valid (m : Monster) (st : Stats) (sk : Skill)
    (s : CombatState) (h : ¬ s.playerMP < sk.mana_cost) :
    (handleSkillUse m st sk s).1.playerMP = s.playerMP - sk.mana_cost := by
  simp only [handleSkillUse]
  rw [if_neg h]
  split <;> rfl

/-- A skill cast schedules the counter attack only when the monster survives. -/
lemma handleSkillUse_counter_imp (m : Monster) (st : Stats) (sk : Skill) (s : CombatState) :
    (handleSkillUse m st sk s).2 = true → 0 < (handleSkillUse m st sk s).1.monsterHP := by
  simp only [handleSkillUse]
  by_cases hv : s.playerMP < sk.mana_cost
  · simp [hv]
  · rw [if_neg hv]
    by_cases h : max 0 (s.monsterHP - skillDamage m st sk) ≤ 0
    · simp [h]
    · intro _
      simpa [h] using by omega

/-- The player HP after a monster counter attack is the clamped difference. -/
lemma monsterAttack_playerHP (m : Monster) (st : Stats) (s : CombatState) :
    (monsterAttack m st s).playerHP = max 0 (s.playerHP - counterDamage m st) := by
  simp only [monsterAttack]
  split <;> rfl

/-- addItem commutes with a head whose id does not match the incoming item. -/
lemma addItem_cons_ne (e : Item) (rest : List Item) (item : Item)
    (hp : (e.id == item.id) = false) :
    addItem (e :: rest) item = e :: addItem rest item := by
  unfold addItem
  rw [List.findIdx?_cons]
  simp only [hp, Bool.false_eq_true, if_false, List.findIdx?_succ]
  cases hr : rest.findIdx? (fun i => i.id == item.id) with
  | none => simp
  | some j =>
      simp only [Option.map_some']
      by_cases ht : jsTruthy item.quantity = true
      · simp only [ht, if_true, List.mapIdx_cons]
        rw [mapIdx_ext rest
          (fun i x => if i + 1 = j + 1 then
            { x with quantity := some (jsOr x.quantity 0 + jsOr item.quantity 1) } else x)
          (fun i x => if i = j then
            { x with quantity := some (jsOr x.quantity 0 + jsOr item.quantity 1) } else x)
          (by
            intro i a
            simp)]
        simp
      · simp [ht]

/-- addItemAmendedSpec commutes with a head whose id does not match. -/
lemma addItemAmendedSpec_cons_ne (e : Item) (rest : List Item) (item : Item)
    (hp : (e.id == item.id) = false) :
    addItemAmendedSpec (e :: rest) item = e :: addItemAmendedSpec rest item := by
  unfold addItemAmendedSpec
  cases hq : item.quantity with
  | none => simp
  | some v =>
      simp only [List.any_cons, hp, Bool.false_or]
      by_cases hc : (v != 0 && rest.any fun x => x.id == item.id) = true
      · simp only [hc, if_true]
        rw [show mergeFirstStack item.id v (e :: rest)
              = e :: mergeFirstStack item.id v rest by
            simp only [mergeFirstStack, hp]
            simp]
      · simp [hc]

/-! Claim theorems. -/

/-- Claim C9 (amended): addItem merges exactly when an entry with the same id
exists and the incoming quantity is present and nonzero (JavaScript
truthiness); the merge keeps the entry count and sums the quantities, with an
absent stored quantity counting as 0; in every other case (no matching id,
absent quantity field, or quantity 0) the item is appended as a new entry.
Stated as: addItem coincides with the definition written from those words. -/
theorem addItem_stacking_amended (inventory : List Item) (item : Item) :
    addItem inventory item = addItemAmendedSpec inventory item := by
  induction inventory with
  | nil =>
      cases hq : item.quantity <;>
        simp [addItem, addItemAmendedSpec, hq]
  | cons e rest ih =>
      by_cases hp : (e.id == item.id) = true
      · by_cases ht : jsTruthy item.quantity = true
        · obtain ⟨v, hq⟩ : ∃ v, item.quantity = some v := by
            cases hq : item.quantity with
            | none =>
                rw [hq] at ht
                simp [jsTruthy] at ht
            | some v => exact ⟨v, rfl⟩
          have hv : (v != 0) = true := by
            rw [hq] at ht
            simpa [jsTruthy] using ht
          have hL : addItem (e :: rest) item
              = { e with quantity := some (jsOr e.quantity 0 + jsOr item.quantity 1) } :: rest := by
            unfold addItem
            rw [List.findIdx?_cons]
            simp only [hp, if_true, ht, List.mapIdx_cons, if_pos rfl]
            rw [mapIdx_ext rest _ (fun _ x => x) (by
              intro i a
              simp), mapIdx_id_eq]
          have hR : addItemAmendedSpec (e :: rest) item
              = { e with quantity := some (e.quantity.getD 0 + v) } :: rest := by
            unfold addItemAmendedSpec
            rw [hq]
            simp only [List.any_cons, hp, Bool.true_or, Bool.and_true, hv, if_true]
            simp only [mergeFirstStack, hp, if_true]
          rw [hL, hR, jsOr_zero, hq, jsOr_of_truthy v 1 (by simpa [jsTruthy] using hv)]
        · cases hq : item.quantity with
          | none =>
              unfold addItem addItemAmendedSpec
              rw [List.findIdx?_cons]
              simp [hp, ht, hq, jsTruthy]
          | some v =>
              have hv0 : v = 0 := by
                rw [hq] at ht
                simpa [jsTruthy] using ht
              unfold addItem addItemAmendedSpec
              rw [List.findIdx?_cons]
              simp [hp, ht, hq, hv0, jsTruthy]
      · have hp' : (e.id == item.id) = false := by simpa using hp
        rw [addItem_cons_ne e rest item hp', addItemAmendedSpec_cons_ne e rest item hp', ih]

/-- Claim C9 (counterexample): the claim as stated demands a merge whenever an
entry with the same id exists and the incoming item carries a quantity field.
The incoming potion carries the quantity field (holding 0) and an entry with
the same id exists, yet addItem appends a second entry instead of merging:
the entry count changes from 1 to 2. -/
theorem addItem_zero_quantity_appends :
    samplePotion0.quantity.isSome = true
    ∧ ([samplePotion3].findIdx? (fun i => i.id == samplePotion0.id)).isSome = true
    ∧ addItem [samplePotion3] samplePotion0 = [samplePotion3, samplePotion0]
    ∧ ([samplePotion3] : List Item).length = 1
    ∧ (addItem [samplePotion3] samplePotion0).length = 2 := by
  refine ⟨rfl, rfl, ?_, rfl, ?_⟩ <;> decide

/-- Claim C1: resolveQuestCompletion triggers a level up iff
experience + reward.experience >= experienceToNext; on trigger the new level
is the old level plus 1, the new experienceToNext is the new level times 100,
and availablePoints grows by 3; at most one level is granted per completion
even when the summed experience crosses two thresholds; and the experience
itself is the plain sum, never reduced or reset by the level up. -/
theorem resolveQuestCompletion_levelUp_rule (c : Character) (q : Quest) :
    ((resolveQuestCompletion c q).level = c.level + 1 ↔
        c.experience + q.rewards.experience ≥ c.experienceToNext)
    ∧ (resolveQuestCompletion c q).level ≤ c.level + 1
    ∧ (resolveQuestCompletion c q).experience = c.experience + q.rewards.experience
    ∧ (resolveQuestCompletion c q).experienceToNext =
        (if c.experience + q.rewards.experience ≥ c.experienceToNext
         then (resolveQuestCompletion c q).level * 100
         else c.experienceToNext)
    ∧ (resolveQuestCompletion c q).stats.availablePoints =
        (if c.experience + q.rewards.experience ≥ c.experienceToNext
         then c.stats.availablePoints + 3
         else c.stats.availablePoints) := by
  unfold resolveQuestCompletion
  by_cases h : c.experience + q.rewards.experience ≥ c.experienceToNext <;>
    simp [h]

/-- Claim C2: completing an active, not yet completed quest adds
rewards.gold to the gold, rewards.experience to the experience, and
rewards.skillPoints (0 when absent) to the skillPoints of the character. -/
theorem completeQuest_reward_totals (s : GameState) (questId : String) (quest : Quest)
    (hfind : s.quests.find? (fun q => q.id == questId) = some quest)
    (_hactive : quest.isActive = true)
    (hnot : quest.isCompleted = false) :
    (completeQuest s questId).character.gold = s.character.gold + quest.rewards.gold
    ∧ (completeQuest s questId).character.experience
        = s.character.experience + quest.rewards.experience
    ∧ (completeQuest s questId).character.skillPoints
        = s.character.skillPoints + quest.rewards.skillPoints.getD 0 := by
  unfold completeQuest
  rw [hfind]
  simp only [hnot, Bool.false_eq_true, if_false]
  unfold resolveQuestCompletion
  refine ⟨rfl, rfl, ?_⟩
  simp [jsOr_zero]

/-- Claim C2 witness: the theorem applied to the sample state and its active,
incomplete sample quest. -/
theorem completeQuest_reward_totals_witness :
    (sampleState.quests.find? (fun q => q.id == "q1") = some sampleQuest
      ∧ sampleQuest.isActive = true
      ∧ sampleQuest.isCompleted = false)
    ∧ ((completeQuest sampleState "q1").character.gold
          = sampleState.character.gold + sampleQuest.rewards.gold
       ∧ (completeQuest sampleState "q1").character.experience
          = sampleState.character.experience + sampleQuest.rewards.experience
       ∧ (completeQuest sampleState "q1").character.skillPoints
          = sampleState.character.skillPoints + sampleQuest.rewards.skillPoints.getD 0) :=
  ⟨⟨by decide, by decide, by decide⟩,
    completeQuest_reward_totals sampleState "q1" sampleQuest (by decide) (by decide) (by decide)⟩

/-- Claim C3: completing a quest whose isCompleted flag is already true
changes nothing at all: the quest list, the character and the inventory are
returned exactly as they were. -/
theorem completeQuest_already_completed_noop (s : GameState) (questId : String) (quest : Quest)
    (hfind : s.quests.find? (fun q => q.id == questId) = some quest)
    (hdone : quest.isCompleted = true) :
    completeQuest s questId = s := by
  unfold completeQuest
  rw [hfind]
  simp [hdone]

/-- Claim C3 witness: the theorem applied to the sample state and its already
completed sample quest. -/
theorem completeQuest_already_completed_noop_witness :
    (sampleState.quests.find? (fun q => q.id == "q2") = some sampleDoneQuest
      ∧ sampleDoneQuest.isCompleted = true)
    ∧ completeQuest sampleState "q2" = sampleState :=
  ⟨⟨by decide, by decide⟩,
    completeQuest_already_completed_noop sampleState "q2" sampleDoneQuest (by decide) (by decide)⟩

/-- Claim C4 (counterexample): with the quest write and the character write
succeeding but the localStorage inventory write failing, the run leaves the
persisted character holding the rewards while the persisted inventory never
receives the granted item: the character mutation is observed (in memory and
in the store) while the inventory mutation is only half applied, refuting
both-or-neither atomicity under persistence failure. -/
theorem completeQuestRun_half_applied :
    sampleQuest.isCompleted = false
    ∧ sampleQuest.rewards.items = some [samplePotion]
    ∧ (completeQuestRun sampleWorld sampleQuest true true false).1.dbCharacter
        = resolveQuestCompletion sampleWorld.memCharacter sampleQuest
    ∧ (completeQuestRun sampleWorld sampleQuest true true false).1.memCharacter
        = resolveQuestCompletion sampleWorld.memCharacter sampleQuest
    ∧ (completeQuestRun sampleWorld sampleQuest true true false).1.memInventory
        = sampleWorld.memInventory ++ [samplePotion]
    ∧ (completeQuestRun sampleWorld sampleQuest true true false).1.lsInventory
        = sampleWorld.lsInventory
    ∧ (completeQuestRun sampleWorld sampleQuest true true false).1.lsInventory
        ≠ (completeQuestRun sampleWorld sampleQuest true true false).1.memInventory := by
  decide

/-- Claim C4 (amended): quest completion is atomic as long as the failure is
the character write: when questAPI.completeQuest or updateCharacter fails,
neither the character nor the inventory changes, in memory or in either
store. When both succeed, the in-memory character and inventory both carry
the full update, the character store carries it, and the inventory store
carries it exactly when the localStorage write also succeeds — that last
failure mode (shown in the counterexample) is the one that breaks
both-or-neither atomicity across the character/inventory boundary. -/
theorem completeQuestRun_atomicity_amended (w : World) (q : Quest)
    (questWriteOk charWriteOk invWriteOk : Bool)
    (hq : q.isCompleted = false) (hsync : w.lsInventory = w.memInventory) :
    (questWriteOk = false → (completeQuestRun w q questWriteOk charWriteOk invWriteOk).1 = w)
    ∧ (charWriteOk = false →
        ((completeQuestRun w q questWriteOk charWriteOk invWriteOk).1.memCharacter
            = w.memCharacter
         ∧ (completeQuestRun w q questWriteOk charWriteOk invWriteOk).1.dbCharacter
            = w.dbCharacter
         ∧ (completeQuestRun w q questWriteOk charWriteOk invWriteOk).1.memInventory
            = w.memInventory
         ∧ (completeQuestRun w q questWriteOk charWriteOk invWriteOk).1.lsInventory
            = w.lsInventory))
    ∧ (questWriteOk = true → charWriteOk = true →
        ((completeQuestRun w q questWriteOk charWriteOk invWriteOk).1.memCharacter
            = resolveQuestCompletion w.memCharacter q
         ∧ (completeQuestRun w q questWriteOk charWriteOk invWriteOk).1.dbCharacter
            = resolveQuestCompletion w.memCharacter q
         ∧ (completeQuestRun w q questWriteOk charWriteOk invWriteOk).1.memInventory
            = w.memInventory ++ (q.rewards.items.getD [])
         ∧ (invWriteOk = true →
              (completeQuestRun w q questWriteOk charWriteOk invWriteOk).1.lsInventory
                = w.memInventory ++ (q.rewards.items.getD [])))) := by
  cases questWriteOk <;> cases charWriteOk <;> cases invWriteOk <;>
    cases hitems : q.rewards.items <;>
      simp [completeQuestRun, hq, hsync, hitems]

/-- Claim C4 (amended) witness: the theorem applied to the sample world and
sample quest with every write succeeding. -/
theorem completeQuestRun_atomicity_amended_witness :
    (sampleQuest.isCompleted = false
      ∧ sampleWorld.lsInventory = sampleWorld.memInventory)
    ∧ ((true = false → (completeQuestRun sampleWorld sampleQuest true true true).1 = sampleWorld)
       ∧ (true = false →
            ((completeQuestRun sampleWorld sampleQuest true true true).1.memCharacter
                = sampleWorld.memCharacter
             ∧ (completeQuestRun sampleWorld sampleQuest true true true).1.dbCharacter
                = sampleWorld.dbCharacter
             ∧ (completeQuestRun sampleWorld sampleQuest true true true).1.memInventory
                = sampleWorld.memInventory
             ∧ (completeQuestRun sampleWorld sampleQuest true true true).1.lsInventory
                = sampleWorld.lsInventory))
       ∧ (true = true → true = true →
            ((completeQuestRun sampleWorld sampleQuest true true true).1.memCharacter
                = resolveQuestCompletion sampleWorld.memCharacter sampleQuest
             ∧ (completeQuestRun sampleWorld sampleQuest true true true).1.dbCharacter
                = resolveQuestCompletion sampleWorld.memCharacter sampleQuest
             ∧ (completeQuestRun sampleWorld sampleQuest true true true).1.memInventory
                = sampleWorld.memInventory ++ (sampleQuest.rewards.items.getD [])
             ∧ (true = true →
                  (completeQuestRun sampleWorld sampleQuest true true true).1.lsInventory
                    = sampleWorld.memInventory ++ (sampleQuest.rewards.items.getD []))))) :=
  ⟨⟨by decide, rfl⟩,
    completeQuestRun_atomicity_amended sampleWorld sampleQuest true true true (by decide) rfl⟩

/-- Claim C5: when the player action (attack or skill) reduces the monster HP
to 0 or below, the exchange ends with the player action state: no counter
attack fires, so the player HP is untouched and the final state satisfies the
victory condition. The counter attack is scheduled exactly when the monster
is still alive after a basic attack, and only when it is still alive after a
skill cast. -/
theorem victory_precludes_counter (m : Monster) (st : Stats) (sk : Skill)
    (s t : CombatState)
    (hA : (handleAttack m st s).1.monsterHP ≤ 0)
    (hS : (handleSkillUse m st sk t).1.monsterHP ≤ 0) :
    attackExchange m st s = (handleAttack m st s).1
    ∧ (attackExchange m st s).playerHP = s.playerHP
    ∧ (attackExchange m st s).monsterHP ≤ 0
    ∧ skillExchange m st sk t = (handleSkillUse m st sk t).1
    ∧ (skillExchange m st sk t).playerHP = t.playerHP
    ∧ ((handleAttack m st s).2 = true ↔ 0 < (handleAttack m st s).1.monsterHP)
    ∧ ((handleSkillUse m st sk t).2 = true → 0 < (handleSkillUse m st sk t).1.monsterHP) := by
  have hA2 : (handleAttack m st s).2 = false := by
    cases hb : (handleAttack m st s).2
    · rfl
    · have := (handleAttack_counter_iff m st s).mp hb
      omega
  have hS2 : (handleSkillUse m st sk t).2 = false := by
    cases hb : (handleSkillUse m st sk t).2
    · rfl
    · have := handleSkillUse_counter_imp m st sk t hb
      omega
  refine ⟨?_, ?_, ?_, ?_, ?_,
    handleAttack_counter_iff m st s, handleSkillUse_counter_imp m st sk t⟩
  · simp only [attackExchange, hA2]
    simp
  · simp only [attackExchange, hA2]
    simp [handleAttack_playerHP]
  · simp only [attackExchange, hA2]
    simpa using hA
  · simp only [skillExchange, hS2]
    simp
  · simp only [skillExchange, hS2]
    simp [handleSkillUse_playerHP]

/-- Claim C5 witness: the theorem applied to the weak monster, which both the
sample attack and the sample skill cast defeat outright. -/
theorem victory_precludes_counter_witness :
    ((handleAttack sampleWeakMonster sampleStats sampleCombatLowMonster).1.monsterHP ≤ 0
      ∧ (handleSkillUse sampleWeakMonster sampleStats sampleSkill
          sampleCombatLowMonster).1.monsterHP ≤ 0)
    ∧ (attackExchange sampleWeakMonster sampleStats sampleCombatLowMonster
        = (handleAttack sampleWeakMonster sampleStats sampleCombatLowMonster).1
       ∧ (attackExchange sampleWeakMonster sampleStats sampleCombatLowMonster).playerHP
          = sampleCombatLowMonster.playerHP
       ∧ (attackExchange sampleWeakMonster sampleStats sampleCombatLowMonster).monsterHP ≤ 0
       ∧ skillExchange sampleWeakMonster sampleStats sampleSkill sampleCombatLowMonster
          = (handleSkillUse sampleWeakMonster sampleStats sampleSkill sampleCombatLowMonster).1
       ∧ (skillExchange sampleWeakMonster sampleStats sampleSkill
            sampleCombatLowMonster).playerHP = sampleCombatLowMonster.playerHP
       ∧ ((handleAttack sampleWeakMonster sampleStats sampleCombatLowMonster).2 = true ↔
            0 < (handleAttack sampleWeakMonster sampleStats sampleCombatLowMonster).1.monsterHP)
       ∧ ((handleSkillUse sampleWeakMonster sampleStats sampleSkill
            sampleCombatLowMonster).2 = true →
            0 < (handleSkillUse sampleWeakMonster sampleStats sampleSkill
              sampleCombatLowMonster).1.monsterHP)) :=
  ⟨⟨by decide,
    by
      rw [handleSkillUse_monsterHP_of_valid _ _ _ _ (by decide), skillDamage_eval]
      decide⟩,
    victory_precludes_counter sampleWeakMonster sampleStats sampleSkill
      sampleCombatLowMonster sampleCombatLowMonster (by decide)
      (by
        rw [handleSkillUse_monsterHP_of_valid _ _ _ _ (by decide), skillDamage_eval]
        decide)⟩

/-- Claim C6: each of the three damage computations (basic attack, skill,
monster counter) applies damage of at least 1, whatever the attacker and
defender stats, even when the raw formula is 0 or negative. -/
theorem combat_damage_floor (m : Monster) (st : Stats) (sk : Skill) :
    1 ≤ attackDamage m st ∧ 1 ≤ skillDamage m st sk ∧ 1 ≤ counterDamage m st :=
  ⟨le_max_left 1 _, le_max_left 1 _, le_max_left 1 _⟩

/-- Claim C7 (counterexample): handleSkillUse never consults the unlocked
skill list. With an empty unlocked list (so the sample skill is certainly not
unlocked) and sufficient mana, the cast is still applied: the monster HP
drops by the skill damage and the mana is deducted, instead of the claimed
engine-side rejection as a no-op. -/
theorem handleSkillUse_ignores_unlock_list :
    sampleSkill ∉ ([] : List Skill)
    ∧ ¬ sampleCombat.playerMP < sampleSkill.mana_cost
    ∧ (handleSkillUse sampleMonster sampleStats sampleSkill sampleCombat).1.monsterHP
        = sampleCombat.monsterHP - 20
    ∧ (handleSkillUse sampleMonster sampleStats sampleSkill sampleCombat).1.playerMP
        = sampleCombat.playerMP - sampleSkill.mana_cost := by
  refine ⟨by simp, by decide, ?_, ?_⟩
  · rw [handleSkillUse_monsterHP_of_valid _ _ _ _ (by decide), skillDamage_eval]
    decide
  · rw [handleSkillUse_playerMP_of_valid _ _ _ _ (by decide)]

/-- Claim C7 (amended): the engine re-validates only the mana condition:
when playerMP < skill.mana_cost, handleSkillUse is a complete no-op (no
change to HP, MP, the combat log or the menu, and no counter attack is
scheduled). The unlocked-skill condition is enforced solely by the UI, which
builds the skill menu from the unlocked list; handleSkillUse itself does not
re-check it. -/
theorem handleSkillUse_mana_revalidation (m : Monster) (st : Stats) (sk : Skill)
    (s : CombatState) (h : s.playerMP < sk.mana_cost) :
    handleSkillUse m st sk s = (s, false) := by
  unfold handleSkillUse
  rw [if_pos h]

/-- Claim C7 (amended) witness: the theorem applied to the low-mana combat
state. -/
theorem handleSkillUse_mana_revalidation_witness :
    sampleLowMPCombat.playerMP < sampleSkill.mana_cost
    ∧ handleSkillUse sampleMonster sampleStats sampleSkill sampleLowMPCombat
        = (sampleLowMPCombat, false) :=
  ⟨by decide,
    handleSkillUse_mana_revalidation sampleMonster sampleStats sampleSkill
      sampleLowMPCombat (by decide)⟩

/-- Claim C8 (code bug evidence): the delayed counter attack performs no
check that the encounter is still active. On a state in which the monster is
already defeated (victory reached before the pending timer fired), and
likewise right after fleeing, monsterAttack still applies its damage to the
player. -/
theorem monsterAttack_fires_after_encounter_end :
    sampleVictoryCombat.monsterHP ≤ 0
    ∧ (monsterAttack sampleMonster sampleStats sampleVictoryCombat).playerHP
        = sampleVictoryCombat.playerHP - 10
    ∧ (monsterAttack sampleMonster sampleStats (handleRun sampleCombat)).playerHP
        = sampleCombat.playerHP - 10 := by
  decide

/-- Claim C10: every damage application clamps the target HP at zero: a basic
attack and a valid skill cast never drive the monster HP below 0, and a
monster counter attack never drives the player HP below 0, even when the
damage exceeds the remaining HP. -/
theorem combat_hp_clamped (m : Monster) (st : Stats) (sk : Skill) (s : CombatState)
    (h : ¬ s.playerMP < sk.mana_cost) :
    0 ≤ (handleAttack m st s).1.monsterHP
    ∧ 0 ≤ (handleSkillUse m st sk s).1.monsterHP
    ∧ 0 ≤ (monsterAttack m st s).playerHP := by
  refine ⟨?_, ?_, ?_⟩
  · rw [handleAttack_monsterHP]
    exact le_max_left 0 _
  · rw [handleSkillUse_monsterHP_of_valid m st sk s h]
    exact le_max_left 0 _
  · rw [monsterAttack_playerHP]
    exact le_max_left 0 _

/-- Claim C10 witness: the theorem applied to the sample combat state, where
the mana suffices for the sample skill. -/
theorem combat_hp_clamped_witness :
    (¬ sampleCombat.playerMP < sampleSkill.mana_cost)
    ∧ (0 ≤ (handleAttack sampleMonster sampleStats sampleCombat).1.monsterHP
       ∧ 0 ≤ (handleSkillUse sampleMonster sampleStats sampleSkill sampleCombat).1.monsterHP
       ∧ 0 ≤ (monsterAttack sampleMonster sampleStats sampleCombat).playerHP) :=
  ⟨by decide,
    combat_hp_clamped sampleMonster sampleStats sampleSkill sampleCombat (by decide)⟩

end RpgTracker
